import Mathlib

/-! Exoscale Terraform provider: security group and security group rule resources.

A shallow embedding of `exoscale/security_group_resource.go` and
`exoscale/security_rule_resource.go`, followed by theorems about the handlers.

Conventions of the embedding:

* A Go `error` result is an `Option Error` (`none` is `nil`); a Go `(value, error)`
  result is an `Except Error value`.
* `*schema.ResourceData` is a record with one field per schema entry.  A field is
  `none` while the attribute is unset; `d.Get(key)` reads it with the zero value of
  its type as default, `d.Set(key, v)` stores `some v`.
* The remote compute API is deterministic but otherwise arbitrary: every endpoint
  of `Client` answers as a function of the calls made so far and of its arguments.
  Handlers thread the list of calls, so an `Outcome` records which endpoints were
  reached and with which arguments.
* Go `int` values are only copied, never computed with, so they are `Int`.
-/

namespace Exoscale

/-! ## Values of the remote API (package `egoscale`), as far as the handlers use them -/

/-- Go `error` values coming back from the API client.  The handlers never inspect
an error; the two constructors keep apart a missing resource and any other failure. -/
inductive Error where
  | notFound (what : String)
  | failure (msg : String)
deriving DecidableEq, Repr

/-- The fields of `egoscale.SecurityGroupRule` read by the handlers. -/
structure SecurityGroupRule where
  Id : String
  Cidr : String
  StartPort : Int
  EndPort : Int
  IcmpType : Int
  IcmpCode : Int
deriving DecidableEq, Repr

/-- The fields of `egoscale.SecurityGroup` read by the handlers. -/
structure SecurityGroup where
  Id : String
  Name : String
  Description : String
  Account : String
  VirtualMachineCount : Int
  VirtualMachineIds : List String
  IngressRules : List SecurityGroupRule
  EgressRules : List SecurityGroupRule
deriving DecidableEq, Repr

/-- The fields of `egoscale.SecurityGroupProfile` written by `CreateSecurityGroup`. -/
structure SecurityGroupProfile where
  Name : String
  Description : String
deriving DecidableEq, Repr

/-- The fields of `egoscale.UserSecurityGroup` written by `CreateSecurityGroupRule`. -/
structure UserSecurityGroup where
  Account : String
  Group : String
deriving DecidableEq, Repr

/-- The fields of `egoscale.SecurityGroupRuleProfile` written by
`CreateSecurityGroupRule`.  A Go nil slice is the empty list. -/
structure SecurityGroupRuleProfile where
  SecurityGroupId : String
  Cidr : String
  Protocol : String
  StartPort : Int
  EndPort : Int
  IcmpType : Int
  IcmpCode : Int
  UserSecurityGroupList : List UserSecurityGroup
deriving DecidableEq, Repr

/-- One call made to the API client, with its arguments.  `getSecurityGroup` is the
lookup helper of the provider (by id or by name); the others are the client's
endpoints. -/
inductive ApiCall where
  | CreateSecurityGroup (profile : SecurityGroupProfile)
  | GetSecurityGroupById (id : String)
  | DeleteSecurityGroup (name : String)
  | getSecurityGroup (ref : String)
  | CreateIngressRule (profile : SecurityGroupRuleProfile) (async : Bool)
  | CreateEgressRule (profile : SecurityGroupRuleProfile) (async : Bool)
  | DeleteIngressRule (id : String) (async : Bool)
  | DeleteEgressRule (id : String) (async : Bool)
deriving DecidableEq, Repr

/-- The compute client returned by `GetComputeClient(meta)`.  Each endpoint receives
the calls made before it, which stands for the state of the remote side.
`getSecurityGroup` stands for `getSecurityGroup(client, ref)`, the lookup helper of
the provider, whose body is in neither of the two files: what it answers is left
open, like the answers of the endpoints. -/
structure Client where
  CreateSecurityGroup : List ApiCall → SecurityGroupProfile → Except Error SecurityGroup
  GetSecurityGroupById : List ApiCall → String → Except Error SecurityGroup
  DeleteSecurityGroup : List ApiCall → String → Option Error
  getSecurityGroup : List ApiCall → String → Except Error SecurityGroup
  CreateIngressRule :
    List ApiCall → SecurityGroupRuleProfile → Bool → Except Error SecurityGroupRule
  CreateEgressRule :
    List ApiCall → SecurityGroupRuleProfile → Bool → Except Error SecurityGroupRule
  DeleteIngressRule : List ApiCall → String → Bool → Option Error
  DeleteEgressRule : List ApiCall → String → Bool → Option Error

/-- The `meta` argument of every handler: a `BaseConfig` carrying the client and
the `async` flag. -/
structure BaseConfig where
  client : Client
  async : Bool

/-- What a handler leaves behind: the returned error, the resource data after the
call, and the API calls made so far. -/
structure Outcome (σ : Type) where
  err : Option Error
  d : σ
  calls : List ApiCall
deriving DecidableEq

/-! ## Go `strings`, and `validation` / `helper/schema` of Terraform

These libraries are not part of the provider; the definitions below follow their
documented behaviour for the calls the provider makes. -/

/-- Go `unicode.ToLower` on one code point.  Exact on ASCII and on the two other
code points that Go lower-cases to an ASCII letter (U+0130 to `i`, U+212A to `k`).
Every remaining code point is outside ASCII and stays outside ASCII under Go; it is
left in place here, which no comparison with an ASCII literal can tell apart. -/
def unicode.ToLower (c : Char) : Char :=
  if 65 ≤ c.toNat ∧ c.toNat ≤ 90 then Char.ofNat (c.toNat + 32)
  else if c.toNat = 304 then 'i'
  else if c.toNat = 8490 then 'k'
  else c

/-- Go `unicode.ToUpper` on one code point.  Exact on ASCII and on the two other
code points that Go upper-cases to an ASCII letter (U+0131 to `I`, U+017F to `S`);
in particular U+0130, an upper-case letter, is kept.  Other code points as for
`unicode.ToLower`. -/
def unicode.ToUpper (c : Char) : Char :=
  if 97 ≤ c.toNat ∧ c.toNat ≤ 122 then Char.ofNat (c.toNat - 32)
  else if c.toNat = 305 then 'I'
  else if c.toNat = 383 then 'S'
  else c

/-- Go `strings.ToLower`: `unicode.ToLower` on every code point. -/
def strings.ToLower (s : String) : String := String.mk (s.data.map unicode.ToLower)

/-- Go `strings.ToUpper`: `unicode.ToUpper` on every code point. -/
def strings.ToUpper (s : String) : String := String.mk (s.data.map unicode.ToUpper)

/-- A decoded attribute value of a configuration. -/
inductive Value where
  | str (s : String)
  | int (n : Int)
  | set (xs : List String)
deriving DecidableEq, Repr

/-- The `schema.ValueType`s the two resources use. -/
inductive ValueType where
  | TypeString
  | TypeInt
  | TypeSet
deriving DecidableEq, Repr

/-- The fields of `schema.Schema` the two resources use.  A `ValidateFunc` answers
`true` when it reports no error; `Elem` is the type of the elements of a set (its
hash function `Set` plays no part here). -/
structure Schema where
  type : ValueType
  Required : Bool := false
  Optional : Bool := false
  Computed : Bool := false
  ForceNew : Bool := false
  Default : Option Value := none
  ValidateFunc : Option (Value → Bool) := none
  ConflictsWith : List String := []
  Elem : Option ValueType := none

/-- A resource configuration as written by the user, after decoding: the keys that
are set, each with its value.  Values still unknown at validation time
(interpolations) are outside this embedding. -/
abbrev Config := List (String × Value)

/-- `validation.StringInSlice(valid, ignoreCase)`: the value is a string equal to an
element of `valid`, or equal to it after `strings.ToLower` on both sides when
`ignoreCase` is set. -/
def validation.StringInSlice (valid : List String) (ignoreCase : Bool) (i : Value) : Bool :=
  match i with
  | .str v =>
    valid.any fun str => v == str || (ignoreCase && strings.ToLower v == strings.ToLower str)
  | _ => false

/-- `validation.IntBetween(min, max)`: the value is an int and neither `v < min` nor
`v > max`. -/
def validation.IntBetween (min max : Int) (i : Value) : Bool :=
  match i with
  | .int v => !(decide (v < min) || decide (v > max))
  | _ => false

/-- Whether a decoded value has the type a schema entry asks for. -/
def Value.hasType : Value → ValueType → Bool
  | .str _, .TypeString => true
  | .int _, .TypeInt => true
  | .set _, .TypeSet => true
  | _, _ => false

/-- `schemaMap.validateConflictingAttributes`: no key of `ConflictsWith` is set. -/
def schemaMap.validateConflictingAttributes (schema : Schema) (c : Config) : Bool :=
  schema.ConflictsWith.all fun conflicting_key => (c.lookup conflicting_key).isNone

/-- `schemaMap.validateType` for the value of one key: it decodes to the type of the
entry and passes the entry's `ValidateFunc`. -/
def schemaMap.validateType (raw : Value) (schema : Schema) : Bool :=
  raw.hasType schema.type &&
    match schema.ValidateFunc with
    | none => true
    | some f => f raw

/-- `schemaMap.validate` for one key: an unset key is an error only when required; a
set key must be settable (required or optional), free of conflicts, and valid. -/
def schemaMap.validate (k : String) (schema : Schema) (c : Config) : Bool :=
  match c.lookup k with
  | none => !schema.Required
  | some raw =>
    (schema.Required || schema.Optional) &&
      schemaMap.validateConflictingAttributes schema c &&
      schemaMap.validateType raw schema

/-- `schemaMap.Validate` on a whole configuration: every entry of the schema
validates, and the configuration sets no key the schema does not declare
("invalid or unknown key"). -/
def schemaMap.Validate (sm : List (String × Schema)) (c : Config) : Bool :=
  (sm.all fun e => schemaMap.validate e.1 e.2 c) &&
    c.all fun kv => (sm.lookup kv.1).isSome

/-- The fields of `schema.Resource` the provider fills: the three handlers and the
schema.  A handler takes `meta`, the resource data and the calls made so far. -/
structure Resource (σ : Type) where
  Create : BaseConfig → σ → List ApiCall → Outcome σ
  Read : BaseConfig → σ → List ApiCall → Outcome σ
  Delete : BaseConfig → σ → List ApiCall → Outcome σ
  Schema : List (String × Schema)

/-! ## Security group resource (`security_group_resource.go`) -/

/-- Resource data of a security group: the identifier and the five attributes of
the schema of `SecurityGroupResource` (lines 14-41). -/
structure SecurityGroupData where
  id : String
  name : Option String
  description : Option String
  account : Option String
  virtual_machine_count : Option Int
  virtual_machine_ids : Option (List String)
deriving DecidableEq, Repr

/-- `applySecurityGroup` (lines 88-96): five writes, then `return nil`. -/
def applySecurityGroup (securityGroup : SecurityGroup) (d : SecurityGroupData) :
    SecurityGroupData × Option Error :=
  let d := { d with id := securityGroup.Id }
  let d := { d with name := some securityGroup.Name }
  let d := { d with description := some securityGroup.Description }
  let d := { d with virtual_machine_count := some securityGroup.VirtualMachineCount }
  let d := { d with virtual_machine_ids := some securityGroup.VirtualMachineIds }
  (d, none)

/-- `CreateSecurityGroup` (lines 46-58). -/
def CreateSecurityGroup (m : BaseConfig) (d : SecurityGroupData) (log : List ApiCall) :
    Outcome SecurityGroupData :=
  let client := m.client
  let profile : SecurityGroupProfile :=
    { Name := d.name.getD "", Description := d.description.getD "" }
  match client.CreateSecurityGroup log profile with
  | .error err => ⟨some err, d, log ++ [ApiCall.CreateSecurityGroup profile]⟩
  | .ok resp =>
    let r := applySecurityGroup resp d
    ⟨r.2, r.1, log ++ [ApiCall.CreateSecurityGroup profile]⟩

/-- `ReadSecurityGroup` (lines 61-74). -/
def ReadSecurityGroup (m : BaseConfig) (d : SecurityGroupData) (log : List ApiCall) :
    Outcome SecurityGroupData :=
  let client := m.client
  match client.GetSecurityGroupById log d.id with
  | .error _ => ⟨none, { d with id := "" }, log ++ [ApiCall.GetSecurityGroupById d.id]⟩
  | .ok resp =>
    let r := applySecurityGroup resp d
    ⟨r.2, r.1, log ++ [ApiCall.GetSecurityGroupById d.id]⟩

/-- `DeleteSecurityGroup` (lines 77-85). -/
def DeleteSecurityGroup (m : BaseConfig) (d : SecurityGroupData) (log : List ApiCall) :
    Outcome SecurityGroupData :=
  let client := m.client
  match client.DeleteSecurityGroup log (d.name.getD "") with
  | some err => ⟨some err, d, log ++ [ApiCall.DeleteSecurityGroup (d.name.getD "")]⟩
  | none => ⟨none, d, log ++ [ApiCall.DeleteSecurityGroup (d.name.getD "")]⟩

/-- `SecurityGroupResource` (lines 8-43). -/
def SecurityGroupResource : Resource SecurityGroupData :=
  { Create := CreateSecurityGroup
    Read := ReadSecurityGroup
    Delete := DeleteSecurityGroup
    Schema :=
      [ ("name", { type := .TypeString, ForceNew := true, Required := true }),
        ("description", { type := .TypeString, ForceNew := true, Optional := true }),
        ("account", { type := .TypeString, Computed := true }),
        ("virtual_machine_count", { type := .TypeInt, Computed := true }),
        ("virtual_machine_ids",
          { type := .TypeSet, Computed := true, Elem := some .TypeString }) ] }

/-! ## Security group rule resource (`security_rule_resource.go`) -/

/-- Resource data of a security group rule: the identifier and one field per entry
of the schema of `SecurityGroupRuleResource` (lines 18-87). -/
structure SecurityGroupRuleData where
  id : String
  type : Option String
  security_group_id : Option String
  security_group_name : Option String
  cidr : Option String
  protocol : Option String
  start_port : Option Int
  end_port : Option Int
  icmp_type : Option Int
  icmp_code : Option Int
  user_security_group : Option String
deriving DecidableEq, Repr

/-- `d.GetOkExists(key)`: the value of the attribute and whether it is set.  A key
that the schema of the resource does not declare reads as `(nil, false)`. -/
def SecurityGroupRuleData.GetOkExists (d : SecurityGroupRuleData) (key : String) :
    Option Value × Bool :=
  if key = "type" then (some (.str (d.type.getD "")), d.type.isSome)
  else if key = "security_group_id" then
    (some (.str (d.security_group_id.getD "")), d.security_group_id.isSome)
  else if key = "security_group_name" then
    (some (.str (d.security_group_name.getD "")), d.security_group_name.isSome)
  else if key = "cidr" then (some (.str (d.cidr.getD "")), d.cidr.isSome)
  else if key = "protocol" then (some (.str (d.protocol.getD "")), d.protocol.isSome)
  else if key = "start_port" then (some (.int (d.start_port.getD 0)), d.start_port.isSome)
  else if key = "end_port" then (some (.int (d.end_port.getD 0)), d.end_port.isSome)
  else if key = "icmp_type" then (some (.int (d.icmp_type.getD 0)), d.icmp_type.isSome)
  else if key = "icmp_code" then (some (.int (d.icmp_code.getD 0)), d.icmp_code.isSome)
  else if key = "user_security_group" then
    (some (.str (d.user_security_group.getD "")), d.user_security_group.isSome)
  else (none, false)

/-- `applySecurityGroupRule` (lines 199-207): five writes, then `return nil`. -/
def applySecurityGroupRule (rule : SecurityGroupRule) (d : SecurityGroupRuleData) :
    SecurityGroupRuleData × Option Error :=
  let d := { d with cidr := some rule.Cidr }
  let d := { d with end_port := some rule.EndPort }
  let d := { d with start_port := some rule.StartPort }
  let d := { d with icmp_type := some rule.IcmpType }
  let d := { d with icmp_code := some rule.IcmpCode }
  (d, none)

/-- The group reference of `CreateSecurityGroupRule` (lines 95-98):
`security_group_id`, or `security_group_name` when the former is empty. -/
def securityGroupRef (d : SecurityGroupRuleData) : String :=
  let securityGroupId := d.security_group_id.getD ""
  if securityGroupId = "" then d.security_group_name.getD "" else securityGroupId

/-- The rule profile of `CreateSecurityGroupRule` before the peer group is added
(lines 104-117): the struct literal, then the override by `port`, which applies
when `GetOkExists` reports the key as set and its value is a positive int. -/
def securityGroupRuleProfile (securityGroup : SecurityGroup) (d : SecurityGroupRuleData) :
    SecurityGroupRuleProfile :=
  let profile : SecurityGroupRuleProfile :=
    { SecurityGroupId := securityGroup.Id
      Cidr := d.cidr.getD ""
      Protocol := strings.ToUpper (d.protocol.getD "")
      StartPort := d.start_port.getD 0
      EndPort := d.end_port.getD 0
      IcmpType := d.icmp_type.getD 0
      IcmpCode := d.icmp_code.getD 0
      UserSecurityGroupList := [] }
  match d.GetOkExists "port" with
  | (some (.int port), true) =>
    if port > 0 then { profile with StartPort := port, EndPort := port } else profile
  | _ => profile

/-- The peer group of `CreateSecurityGroupRule` (lines 122-136): when
`user_security_group` is not empty it is looked up, and on success the profile gets
the one-element list made of the account and name of the group found.  The result
is the profile (or the error of the lookup) and the calls made so far. -/
def withUserSecurityGroup (client : Client) (d : SecurityGroupRuleData)
    (securityGroupRuleProfile : SecurityGroupRuleProfile) (log : List ApiCall) :
    Except Error SecurityGroupRuleProfile × List ApiCall :=
  let groupName := d.user_security_group.getD ""
  if groupName ≠ "" then
    match client.getSecurityGroup log groupName with
    | .error err => (.error err, log ++ [.getSecurityGroup groupName])
    | .ok userSecurityGroup =>
      (.ok { securityGroupRuleProfile with
              UserSecurityGroupList :=
                [{ Account := userSecurityGroup.Account, Group := userSecurityGroup.Name }] },
        log ++ [.getSecurityGroup groupName])
  else (.ok securityGroupRuleProfile, log)

/-- The call of lines 139-144 as it is logged: `CreateIngressRule` when the
lower-cased `type` is `"ingress"`, `CreateEgressRule` otherwise. -/
def createRuleCall (d : SecurityGroupRuleData) (profile : SecurityGroupRuleProfile)
    (async : Bool) : ApiCall :=
  let kind := strings.ToLower (d.type.getD "")
  if kind = "ingress" then .CreateIngressRule profile async
  else .CreateEgressRule profile async

/-- The call of lines 139-144 and its answer. -/
def createRule (client : Client) (d : SecurityGroupRuleData)
    (profile : SecurityGroupRuleProfile) (async : Bool) (log : List ApiCall) :
    Except Error SecurityGroupRule :=
  let kind := strings.ToLower (d.type.getD "")
  if kind = "ingress" then client.CreateIngressRule log profile async
  else client.CreateEgressRule log profile async

/-- The profile carried by a call that creates a rule. -/
def ApiCall.ruleProfile? : ApiCall → Option SecurityGroupRuleProfile
  | .CreateIngressRule profile _ => some profile
  | .CreateEgressRule profile _ => some profile
  | _ => none

/-- Whether a call creates a rule. -/
def ApiCall.createsRule : ApiCall → Bool
  | .CreateIngressRule _ _ => true
  | .CreateEgressRule _ _ => true
  | _ => false

/-- `CreateSecurityGroupRule` (lines 91-154). -/
def CreateSecurityGroupRule (m : BaseConfig) (d : SecurityGroupRuleData)
    (log : List ApiCall) : Outcome SecurityGroupRuleData :=
  let client := m.client
  let async := m.async
  let securityGroupId := securityGroupRef d
  match client.getSecurityGroup log securityGroupId with
  | .error err => ⟨some err, d, log ++ [.getSecurityGroup securityGroupId]⟩
  | .ok securityGroup =>
    let log1 := log ++ [.getSecurityGroup securityGroupId]
    let securityGroupRuleProfile := securityGroupRuleProfile securityGroup d
    match withUserSecurityGroup client d securityGroupRuleProfile log1 with
    | (.error err, log2) => ⟨some err, d, log2⟩
    | (.ok securityGroupRuleProfile, log2) =>
      let log3 := log2 ++ [createRuleCall d securityGroupRuleProfile async]
      match createRule client d securityGroupRuleProfile async log2 with
      | .error err => ⟨some err, d, log3⟩
      | .ok resp =>
        let d := { d with id := resp.Id }
        let d := { d with security_group_id := some securityGroup.Id }
        let d := { d with security_group_name := some securityGroup.Name }
        let r := applySecurityGroupRule resp d
        ⟨r.2, r.1, log3⟩

/-- The rule list scanned by `ReadSecurityGroupRule` (lines 169-175): the ingress
rules when the stored `type` is the string `"ingress"`, the egress rules otherwise. -/
def readRules (securityGroup : SecurityGroup) (d : SecurityGroupRuleData) :
    List SecurityGroupRule :=
  if d.type.getD "" = "ingress" then securityGroup.IngressRules
  else securityGroup.EgressRules

/-- `ReadSecurityGroupRule` (lines 157-185).  The `for` loop returns at the first
rule whose id is the identifier, which is `List.find?`. -/
def ReadSecurityGroupRule (m : BaseConfig) (d : SecurityGroupRuleData)
    (log : List ApiCall) : Outcome SecurityGroupRuleData :=
  let securityGroupId := d.security_group_id.getD ""
  if securityGroupId = "" then ⟨none, d, log⟩
  else
    let client := m.client
    match client.getSecurityGroup log securityGroupId with
    | .error err => ⟨some err, d, log ++ [.getSecurityGroup securityGroupId]⟩
    | .ok securityGroup =>
      let rules := readRules securityGroup d
      match rules.find? fun rule => rule.Id == d.id with
      | some rule =>
        let r := applySecurityGroupRule rule d
        ⟨r.2, r.1, log ++ [.getSecurityGroup securityGroupId]⟩
      | none => ⟨none, { d with id := "" }, log ++ [.getSecurityGroup securityGroupId]⟩

/-- `DeleteSecurityGroupRule` (lines 188-197). -/
def DeleteSecurityGroupRule (m : BaseConfig) (d : SecurityGroupRuleData)
    (log : List ApiCall) : Outcome SecurityGroupRuleData :=
  let client := m.client
  let async := m.async
  let kind := strings.ToLower (d.type.getD "")
  if kind = "ingress" then
    ⟨client.DeleteIngressRule log d.id async, d, log ++ [.DeleteIngressRule d.id async]⟩
  else
    ⟨client.DeleteEgressRule log d.id async, d, log ++ [.DeleteEgressRule d.id async]⟩

/-- `SecurityGroupRuleResource` (lines 12-89).  `validation.CIDRNetwork` (parsing of
IPv4 and IPv6 networks) is taken as a parameter. -/
def SecurityGroupRuleResource (CIDRNetwork : Int → Int → Value → Bool) :
    Resource SecurityGroupRuleData :=
  { Create := CreateSecurityGroupRule
    Read := ReadSecurityGroupRule
    Delete := DeleteSecurityGroupRule
    Schema :=
      [ ("type",
          { type := .TypeString, Required := true, ForceNew := true,
            ValidateFunc := some (validation.StringInSlice ["ingress", "egress"] true) }),
        ("security_group_id",
          { type := .TypeString, Optional := true, Computed := true, ForceNew := true,
            ConflictsWith := ["security_group_name"] }),
        ("security_group_name",
          { type := .TypeString, Optional := true, Computed := true, ForceNew := true,
            ConflictsWith := ["security_group_id"] }),
        ("cidr",
          { type := .TypeString, Optional := true, ForceNew := true,
            ValidateFunc := some (CIDRNetwork 0 32),
            ConflictsWith := ["user_security_group"] }),
        ("protocol",
          { type := .TypeString, Optional := true, Default := some (.str "TCP"),
            ForceNew := true,
            ValidateFunc :=
              some (validation.StringInSlice ["TCP", "UDP", "ICMP", "AH", "ESP", "GRE"] true) }),
        ("start_port",
          { type := .TypeInt, Optional := true, ForceNew := true,
            ValidateFunc := some (validation.IntBetween 1 65535),
            ConflictsWith := ["icmp_type", "icmp_code"] }),
        ("end_port",
          { type := .TypeInt, Optional := true, ForceNew := true,
            ValidateFunc := some (validation.IntBetween 1 65535),
            ConflictsWith := ["icmp_type", "icmp_code"] }),
        ("icmp_type",
          { type := .TypeInt, Optional := true, ForceNew := true,
            ValidateFunc := some (validation.IntBetween 0 255),
            ConflictsWith := ["start_port", "end_port"] }),
        ("icmp_code",
          { type := .TypeInt, Optional := true, ForceNew := true,
            ValidateFunc := some (validation.IntBetween 0 255),
            ConflictsWith := ["start_port", "end_port"] }),
        ("user_security_group",
          { type := .TypeString, Optional := true, ForceNew := true,
            ConflictsWith := ["cidr"] }) ] }

/-! ## Sample remote sides and resource data, used to instantiate the theorems -/

/-- A rule as the API lists it. -/
def sampleRule : SecurityGroupRule :=
  { Id := "rule-1", Cidr := "10.0.0.0/8", StartPort := 22, EndPort := 22,
    IcmpType := 0, IcmpCode := 0 }

/-- A group owned by account `acme`, with two machines and one ingress rule. -/
def sampleGroup : SecurityGroup :=
  { Id := "sg-1", Name := "web", Description := "front", Account := "acme",
    VirtualMachineCount := 2, VirtualMachineIds := ["vm-1", "vm-2"],
    IngressRules := [sampleRule], EgressRules := [] }

/-- The rule the sample API creates: it echoes the submitted profile. -/
def echoRule (p : SecurityGroupRuleProfile) : SecurityGroupRule :=
  { Id := "rule-1", Cidr := p.Cidr, StartPort := p.StartPort, EndPort := p.EndPort,
    IcmpType := p.IcmpType, IcmpCode := p.IcmpCode }

/-- A remote side on which every call succeeds. -/
def healthyClient : Client :=
  { CreateSecurityGroup := fun _ _ => .ok sampleGroup
    GetSecurityGroupById := fun _ _ => .ok sampleGroup
    DeleteSecurityGroup := fun _ _ => none
    getSecurityGroup := fun _ _ => .ok sampleGroup
    CreateIngressRule := fun _ p _ => .ok (echoRule p)
    CreateEgressRule := fun _ p _ => .ok (echoRule p)
    DeleteIngressRule := fun _ _ _ => none
    DeleteEgressRule := fun _ _ _ => none }

/-- A remote side on which the groups are gone: every lookup reports not-found. -/
def goneClient : Client :=
  { healthyClient with
    GetSecurityGroupById := fun _ id => .error (.notFound id)
    getSecurityGroup := fun _ ref => .error (.notFound ref) }

/-- A remote side that knows the group `sg-1` only. -/
def loneClient : Client :=
  { healthyClient with
    getSecurityGroup := fun _ ref =>
      if ref = "sg-1" then .ok sampleGroup else .error (.notFound ref) }

/-- A remote side that resolves groups but refuses to create or delete rules. -/
def refusingClient : Client :=
  { healthyClient with
    CreateIngressRule := fun _ _ _ => .error (.failure "ingress refused")
    CreateEgressRule := fun _ _ _ => .error (.failure "egress refused")
    DeleteIngressRule := fun _ _ _ => some (.failure "ingress refused")
    DeleteEgressRule := fun _ _ _ => some (.failure "egress refused") }

/-- A group whose ingress list holds `rule-1` and then two rules with id `rule-2`. -/
def scanGroup : SecurityGroup :=
  { sampleGroup with
    IngressRules :=
      [sampleRule,
       { Id := "rule-2", Cidr := "192.168.0.0/16", StartPort := 80, EndPort := 81,
         IcmpType := 0, IcmpCode := 0 },
       { Id := "rule-2", Cidr := "172.16.0.0/12", StartPort := 443, EndPort := 443,
         IcmpType := 0, IcmpCode := 0 }] }

/-- A remote side whose lookups answer `scanGroup`. -/
def scanClient : Client :=
  { healthyClient with getSecurityGroup := fun _ _ => .ok scanGroup }

/-- Resource data of a group about to be created. -/
def newGroupData : SecurityGroupData :=
  { id := "", name := some "web", description := some "front", account := none,
    virtual_machine_count := none, virtual_machine_ids := none }

/-- Resource data of a rule with no attribute set. -/
def blankRuleData : SecurityGroupRuleData :=
  { id := "", type := none, security_group_id := none, security_group_name := none,
    cidr := none, protocol := none, start_port := none, end_port := none,
    icmp_type := none, icmp_code := none, user_security_group := none }

/-- A configuration for a TCP rule: port 22 from `10.0.0.0/8` into group `sg-1`. -/
def sshConfig : Config :=
  [("type", .str "ingress"), ("security_group_id", .str "sg-1"),
   ("cidr", .str "10.0.0.0/8"), ("protocol", .str "tcp"),
   ("start_port", .int 22), ("end_port", .int 22)]

/-- The configuration `sshConfig` with its `type` written in upper case. -/
def upperConfig : Config :=
  [("type", .str "INGRESS"), ("security_group_id", .str "sg-1"),
   ("cidr", .str "10.0.0.0/8"), ("protocol", .str "TCP"),
   ("start_port", .int 22), ("end_port", .int 22)]

/-- A configuration whose only port setting is `port = 80`. -/
def portConfig : Config :=
  [("type", .str "ingress"), ("security_group_id", .str "sg-1"), ("port", .int 80)]

/-- The protocol name `ICMP` written with U+0130 (capital I with dot above) as its
first letter. -/
def dottedICMP : String := String.mk [Char.ofNat 304, 'C', 'M', 'P']

/-- Resource data of an ingress rule of group `sg-1` about to be created. -/
def newRuleData : SecurityGroupRuleData :=
  { blankRuleData with
    type := some "ingress", security_group_id := some "sg-1", cidr := some "10.0.0.0/8",
    protocol := some "TCP", start_port := some 22, end_port := some 22 }

/-- The resource data of `upperConfig`. -/
def upperRuleData : SecurityGroupRuleData :=
  { newRuleData with type := some "INGRESS" }

/-- The resource data of `portConfig`: `type`, `security_group_id` and the default
of `protocol`; the key `port` is not an attribute. -/
def portRuleData : SecurityGroupRuleData :=
  { blankRuleData with
    type := some "ingress", security_group_id := some "sg-1", protocol := some "TCP" }

/-- Resource data of the rule `rule-1` of group `sg-1` as a successful creation
leaves it, stored with `type` as given. -/
def storedRuleData (type : String) : SecurityGroupRuleData :=
  { blankRuleData with
    id := "rule-1", type := some type, security_group_id := some "sg-1",
    security_group_name := some "web", cidr := some "10.0.0.0/8",
    protocol := some "TCP", start_port := some 22, end_port := some 22,
    icmp_type := some 0, icmp_code := some 0 }

/-! ## Theorems: security group resource -/

/-- On success `CreateSecurityGroup` takes the identifier, the name, the description,
the machine count and the machine ids from the returned group, and leaves `account`
as it was. -/
theorem CreateSecurityGroup_ok (m : BaseConfig) (d : SecurityGroupData) (log : List ApiCall)
    (resp : SecurityGroup)
    (h : m.client.CreateSecurityGroup log ⟨d.name.getD "", d.description.getD ""⟩ = .ok resp) :
    CreateSecurityGroup m d log =
      ⟨none,
        { id := resp.Id, name := some resp.Name, description := some resp.Description,
          account := d.account,
          virtual_machine_count := some resp.VirtualMachineCount,
          virtual_machine_ids := some resp.VirtualMachineIds },
        log ++ [.CreateSecurityGroup ⟨d.name.getD "", d.description.getD ""⟩]⟩ := by
  simp [CreateSecurityGroup, applySecurityGroup, h]

/-- C1, at a failing input: creating the group `web` against an API that returns
`sampleGroup` (account `acme`) succeeds and stores the returned identifier,
machine count and machine ids, but the `account` attribute, which the schema
declares as computed, stays unset, so it reads as the empty string and not as
`acme`. -/
theorem CreateSecurityGroup_account_unset :
    (SecurityGroupResource.Schema.lookup "account").map (fun schema => schema.Computed)
      = some true ∧
    (CreateSecurityGroup ⟨healthyClient, false⟩ newGroupData []).err = none ∧
    (CreateSecurityGroup ⟨healthyClient, false⟩ newGroupData []).d.id = sampleGroup.Id ∧
    (CreateSecurityGroup ⟨healthyClient, false⟩ newGroupData []).d.virtual_machine_count
      = some sampleGroup.VirtualMachineCount ∧
    (CreateSecurityGroup ⟨healthyClient, false⟩ newGroupData []).d.virtual_machine_ids
      = some sampleGroup.VirtualMachineIds ∧
    (CreateSecurityGroup ⟨healthyClient, false⟩ newGroupData []).d.account = none ∧
    ((CreateSecurityGroup ⟨healthyClient, false⟩ newGroupData []).d.account.getD "")
      ≠ sampleGroup.Account := by
  decide

/-- C2: `ReadSecurityGroup` never returns an error, and whenever
`GetSecurityGroupById` fails, with not-found or with any other error, the
identifier is empty afterwards. -/
theorem ReadSecurityGroup_never_fails (m : BaseConfig) (d : SecurityGroupData)
    (log : List ApiCall) :
    (ReadSecurityGroup m d log).err = none ∧
    ∀ e, m.client.GetSecurityGroupById log d.id = .error e →
      (ReadSecurityGroup m d log).err = none ∧ (ReadSecurityGroup m d log).d.id = "" := by
  constructor
  · cases h : m.client.GetSecurityGroupById log d.id <;>
      simp [ReadSecurityGroup, applySecurityGroup, h]
  · intro e h
    simp [ReadSecurityGroup, h]

/-- C2 at a concrete input: the group `sg-1` was deleted and the API reports
not-found. -/
theorem ReadSecurityGroup_never_fails_witness :
    goneClient.GetSecurityGroupById [] "sg-1" = .error (.notFound "sg-1") ∧
    (ReadSecurityGroup ⟨goneClient, false⟩ { newGroupData with id := "sg-1" } []).err = none ∧
    (ReadSecurityGroup ⟨goneClient, false⟩ { newGroupData with id := "sg-1" } []).d.id = "" :=
  ⟨rfl,
    (ReadSecurityGroup_never_fails ⟨goneClient, false⟩ { newGroupData with id := "sg-1" } []).2
      (.notFound "sg-1") rfl⟩

/-! ## Theorems: security group rule resource, reading -/

/-- When the group lookup of `ReadSecurityGroupRule` fails, the error is returned
and the resource data is left as it was. -/
theorem ReadSecurityGroupRule_lookup_error (m : BaseConfig) (d : SecurityGroupRuleData)
    (log : List ApiCall) (e : Error) (hid : d.security_group_id.getD "" ≠ "")
    (h : m.client.getSecurityGroup log (d.security_group_id.getD "") = .error e) :
    ReadSecurityGroupRule m d log =
      ⟨some e, d, log ++ [.getSecurityGroup (d.security_group_id.getD "")]⟩ := by
  simp [ReadSecurityGroupRule, hid, h]

/-- C3, at a failing input: the rule `rule-1` is stored with `security_group_id`
`sg-1`, the group is gone and the lookup reports not-found.  `ReadSecurityGroupRule`
returns that error and keeps the resource data, identifier `rule-1` included. -/
theorem ReadSecurityGroupRule_group_gone :
    goneClient.getSecurityGroup [] "sg-1" = .error (.notFound "sg-1") ∧
    (ReadSecurityGroupRule ⟨goneClient, false⟩ (storedRuleData "ingress") []).err
      = some (.notFound "sg-1") ∧
    (ReadSecurityGroupRule ⟨goneClient, false⟩ (storedRuleData "ingress") []).d
      = storedRuleData "ingress" ∧
    (ReadSecurityGroupRule ⟨goneClient, false⟩ (storedRuleData "ingress") []).d.id
      = "rule-1" :=
  ⟨rfl, by decide, by decide, by decide⟩

/-- C4, at a failing input: the configuration `upperConfig`, with `type = "INGRESS"`,
passes the validation of the schema, and `CreateSecurityGroupRule` on its data calls
`CreateIngressRule`; the API then lists the rule `rule-1` among the ingress rules of
the group and has no egress rule, yet `ReadSecurityGroupRule` scans the egress rules
and clears the identifier of the rule just created. -/
theorem ReadSecurityGroupRule_upper_case_type :
    schemaMap.Validate (SecurityGroupRuleResource fun _ _ _ => true).Schema upperConfig
      = true ∧
    (CreateSecurityGroupRule ⟨healthyClient, false⟩ upperRuleData []).calls
      = [.getSecurityGroup "sg-1",
         .CreateIngressRule
           { SecurityGroupId := "sg-1", Cidr := "10.0.0.0/8", Protocol := "TCP",
             StartPort := 22, EndPort := 22, IcmpType := 0, IcmpCode := 0,
             UserSecurityGroupList := [] } false] ∧
    (CreateSecurityGroupRule ⟨healthyClient, false⟩ upperRuleData []).d
      = storedRuleData "INGRESS" ∧
    (storedRuleData "INGRESS").id = "rule-1" ∧
    sampleGroup.IngressRules.map (fun r => r.Id) = ["rule-1"] ∧
    readRules sampleGroup (storedRuleData "INGRESS") = sampleGroup.EgressRules ∧
    ReadSecurityGroupRule ⟨healthyClient, false⟩
        (CreateSecurityGroupRule ⟨healthyClient, false⟩ upperRuleData []).d []
      = ⟨none, { storedRuleData "INGRESS" with id := "" }, [.getSecurityGroup "sg-1"]⟩ := by
  decide

/-- The scan of `ReadSecurityGroupRule` stops at the first rule with the wanted id. -/
theorem find_first_rule (id : String) (before after : List SecurityGroupRule)
    (rule : SecurityGroupRule) (hbefore : ∀ r ∈ before, r.Id ≠ id) (hrule : rule.Id = id) :
    (before ++ rule :: after).find? (fun r => r.Id == id) = some rule := by
  induction before with
  | nil => simp [hrule]
  | cons r rest ih =>
    have hr : r.Id ≠ id := hbefore r (List.mem_cons_self r rest)
    have hrest : ∀ x ∈ rest, x.Id ≠ id := fun x hx => hbefore x (List.mem_cons_of_mem r hx)
    simp [hr, ih hrest]

/-- C10: when `security_group_id` is set and the group lookup succeeds,
`ReadSecurityGroupRule` (1) at the first rule of the scanned list whose id is the
stored identifier returns success and only rewrites `cidr`, `start_port`,
`end_port`, `icmp_type` and `icmp_code` with the values of that rule, (2) hence,
whenever some rule of the list has that id, succeeds and keeps the identifier,
`type`, `protocol`, `security_group_id`, `security_group_name` and
`user_security_group`, and (3) when no rule of the list has that id, the empty list
included, returns success with an empty identifier. -/
theorem ReadSecurityGroupRule_scan (m : BaseConfig) (d : SecurityGroupRuleData)
    (log : List ApiCall) (securityGroup : SecurityGroup)
    (hid : d.security_group_id.getD "" ≠ "")
    (hsg : m.client.getSecurityGroup log (d.security_group_id.getD "") = .ok securityGroup) :
    (∀ before rule after, readRules securityGroup d = before ++ rule :: after →
      (∀ r ∈ before, r.Id ≠ d.id) → rule.Id = d.id →
      ReadSecurityGroupRule m d log =
        ⟨none,
          { d with
            cidr := some rule.Cidr, start_port := some rule.StartPort,
            end_port := some rule.EndPort, icmp_type := some rule.IcmpType,
            icmp_code := some rule.IcmpCode },
          log ++ [.getSecurityGroup (d.security_group_id.getD "")]⟩) ∧
    ((∃ rule ∈ readRules securityGroup d, rule.Id = d.id) →
      (ReadSecurityGroupRule m d log).err = none ∧
      (ReadSecurityGroupRule m d log).d.id = d.id ∧
      (ReadSecurityGroupRule m d log).d.type = d.type ∧
      (ReadSecurityGroupRule m d log).d.protocol = d.protocol ∧
      (ReadSecurityGroupRule m d log).d.security_group_id = d.security_group_id ∧
      (ReadSecurityGroupRule m d log).d.security_group_name = d.security_group_name ∧
      (ReadSecurityGroupRule m d log).d.user_security_group = d.user_security_group) ∧
    ((∀ rule ∈ readRules securityGroup d, rule.Id ≠ d.id) →
      ReadSecurityGroupRule m d log =
        ⟨none, { d with id := "" },
          log ++ [.getSecurityGroup (d.security_group_id.getD "")]⟩) := by
  refine ⟨?_, ?_, ?_⟩
  · intro before rule after hlist hbefore hrule
    have hfind := find_first_rule d.id before after rule hbefore hrule
    rw [← hlist] at hfind
    simp [ReadSecurityGroupRule, hid, hsg, hfind, applySecurityGroupRule]
  · rintro ⟨rule, hmem, hrule⟩
    cases hfind : (readRules securityGroup d).find? (fun r => r.Id == d.id) with
    | none =>
      have hno := List.find?_eq_none.mp hfind rule hmem
      simp [hrule] at hno
    | some found =>
      simp [ReadSecurityGroupRule, hid, hsg, hfind, applySecurityGroupRule]
  · intro hnone
    have hfind : (readRules securityGroup d).find? (fun r => r.Id == d.id) = none := by
      apply List.find?_eq_none.mpr
      intro r hr
      simpa using hnone r hr
    simp [ReadSecurityGroupRule, hid, hsg, hfind]

/-- C10 at a concrete input: the rule `rule-2`, stored against group `sg-1`, is read
while the API lists the ingress rules `rule-1` and two rules `rule-2`; the first
`rule-2` is taken.  Read again as an egress rule, nothing matches. -/
theorem ReadSecurityGroupRule_scan_witness :
    ReadSecurityGroupRule ⟨scanClient, false⟩ { storedRuleData "ingress" with id := "rule-2" } []
      = ⟨none,
          { storedRuleData "ingress" with
            id := "rule-2", cidr := some "192.168.0.0/16", start_port := some 80,
            end_port := some 81, icmp_type := some 0, icmp_code := some 0 },
          [.getSecurityGroup "sg-1"]⟩ ∧
    ReadSecurityGroupRule ⟨scanClient, false⟩ { storedRuleData "egress" with id := "rule-2" } []
      = ⟨none, { storedRuleData "egress" with id := "" }, [.getSecurityGroup "sg-1"]⟩ :=
  ⟨(ReadSecurityGroupRule_scan ⟨scanClient, false⟩
      { storedRuleData "ingress" with id := "rule-2" } [] scanGroup (by decide) rfl).1
      [sampleRule] ⟨"rule-2", "192.168.0.0/16", 80, 81, 0, 0⟩
      [⟨"rule-2", "172.16.0.0/12", 443, 443, 0, 0⟩] rfl (by decide) rfl,
   (ReadSecurityGroupRule_scan ⟨scanClient, false⟩
      { storedRuleData "egress" with id := "rule-2" } [] scanGroup (by decide) rfl).2.2
      (by decide)⟩

/-! ## Theorems: security group rule resource, deleting -/

/-- C8: `DeleteSecurityGroupRule` leaves the resource data alone and makes exactly
one call, with the stored identifier and the configured `async` flag:
`DeleteIngressRule` when the lower-cased `type` is `"ingress"`, `DeleteEgressRule`
otherwise; what it returns is what that call returned. -/
theorem DeleteSecurityGroupRule_dispatch (m : BaseConfig) (d : SecurityGroupRuleData)
    (log : List ApiCall) :
    (DeleteSecurityGroupRule m d log).d = d ∧
    (strings.ToLower (d.type.getD "") = "ingress" →
      (DeleteSecurityGroupRule m d log).calls = log ++ [.DeleteIngressRule d.id m.async] ∧
      (DeleteSecurityGroupRule m d log).err = m.client.DeleteIngressRule log d.id m.async) ∧
    (strings.ToLower (d.type.getD "") ≠ "ingress" →
      (DeleteSecurityGroupRule m d log).calls = log ++ [.DeleteEgressRule d.id m.async] ∧
      (DeleteSecurityGroupRule m d log).err = m.client.DeleteEgressRule log d.id m.async) := by
  refine ⟨?_, ?_, ?_⟩
  · by_cases h : strings.ToLower (d.type.getD "") = "ingress" <;>
      simp [DeleteSecurityGroupRule, h]
  · intro h
    simp [DeleteSecurityGroupRule, h]
  · intro h
    simp [DeleteSecurityGroupRule, h]

/-- C8 at concrete inputs: a rule stored with `type = "Ingress"` is deleted through
`DeleteIngressRule`, one stored with `type = "egress"` through `DeleteEgressRule`,
each with the identifier `rule-1` and `async = true`, and the refusal of the API
comes back unchanged. -/
theorem DeleteSecurityGroupRule_dispatch_witness :
    ((DeleteSecurityGroupRule ⟨refusingClient, true⟩ (storedRuleData "Ingress") []).calls
        = [.DeleteIngressRule "rule-1" true] ∧
      (DeleteSecurityGroupRule ⟨refusingClient, true⟩ (storedRuleData "Ingress") []).err
        = some (.failure "ingress refused")) ∧
    ((DeleteSecurityGroupRule ⟨refusingClient, true⟩ (storedRuleData "egress") []).calls
        = [.DeleteEgressRule "rule-1" true] ∧
      (DeleteSecurityGroupRule ⟨refusingClient, true⟩ (storedRuleData "egress") []).err
        = some (.failure "egress refused")) :=
  ⟨(DeleteSecurityGroupRule_dispatch ⟨refusingClient, true⟩ (storedRuleData "Ingress") []).2.1
      (by decide),
   (DeleteSecurityGroupRule_dispatch ⟨refusingClient, true⟩ (storedRuleData "egress") []).2.2
      (by decide)⟩

/-! ## Theorems: security group rule resource, creating -/

/-- C6: `CreateSecurityGroupRule` changes nothing when it fails.  (1) If the lookup
of the owning group fails, (2) if the lookup of the peer group fails, or (3) if the
call creating the rule fails, the error of that call is returned and the resource
data is the one given; in (1) and (2) the calls made are the lookups only, so no
call made by the handler creates a rule.  (4) Whatever the remote side does, an
error on return means the resource data is the one given. -/
theorem CreateSecurityGroupRule_atomic (m : BaseConfig) (d : SecurityGroupRuleData)
    (log : List ApiCall) (e : Error) :
    (m.client.getSecurityGroup log (securityGroupRef d) = .error e →
      CreateSecurityGroupRule m d log =
          ⟨some e, d, log ++ [.getSecurityGroup (securityGroupRef d)]⟩ ∧
        ∀ c ∈ (CreateSecurityGroupRule m d log).calls, c ∉ log → c.createsRule = false) ∧
    (∀ securityGroup,
      m.client.getSecurityGroup log (securityGroupRef d) = .ok securityGroup →
      d.user_security_group.getD "" ≠ "" →
      m.client.getSecurityGroup (log ++ [.getSecurityGroup (securityGroupRef d)])
        (d.user_security_group.getD "") = .error e →
      CreateSecurityGroupRule m d log =
          ⟨some e, d,
            log ++ [.getSecurityGroup (securityGroupRef d)]
              ++ [.getSecurityGroup (d.user_security_group.getD "")]⟩ ∧
        ∀ c ∈ (CreateSecurityGroupRule m d log).calls, c ∉ log → c.createsRule = false) ∧
    (∀ securityGroup profile log2,
      m.client.getSecurityGroup log (securityGroupRef d) = .ok securityGroup →
      withUserSecurityGroup m.client d (securityGroupRuleProfile securityGroup d)
        (log ++ [.getSecurityGroup (securityGroupRef d)]) = (.ok profile, log2) →
      createRule m.client d profile m.async log2 = .error e →
      CreateSecurityGroupRule m d log =
        ⟨some e, d, log2 ++ [createRuleCall d profile m.async]⟩) ∧
    ((CreateSecurityGroupRule m d log).err ≠ none →
      (CreateSecurityGroupRule m d log).d = d) := by
  have lookups : ∀ c ∈ log ++ [.getSecurityGroup (securityGroupRef d)]
      ++ [.getSecurityGroup (d.user_security_group.getD "")],
      c ∉ log → c.createsRule = false := by
    intro c hc hlog
    simp only [List.mem_append, List.mem_singleton] at hc
    rcases hc with (hc | hc) | hc
    · exact absurd hc hlog
    · subst hc; rfl
    · subst hc; rfl
  refine ⟨?_, ?_, ?_, ?_⟩
  · intro h
    have heq : CreateSecurityGroupRule m d log =
        ⟨some e, d, log ++ [.getSecurityGroup (securityGroupRef d)]⟩ := by
      simp [CreateSecurityGroupRule, h]
    refine ⟨heq, ?_⟩
    rw [heq]
    intro c hc hlog
    exact lookups c (List.mem_append_left _ hc) hlog
  · intro securityGroup hsg hpeer hfail
    have heq : CreateSecurityGroupRule m d log =
        ⟨some e, d,
          log ++ [.getSecurityGroup (securityGroupRef d)]
            ++ [.getSecurityGroup (d.user_security_group.getD "")]⟩ := by
      simp [CreateSecurityGroupRule, withUserSecurityGroup, hsg, hpeer, hfail]
    refine ⟨heq, ?_⟩
    rw [heq]
    exact lookups
  · intro securityGroup profile log2 hsg hpeer hfail
    simp [CreateSecurityGroupRule, hsg, hpeer, hfail]
  · intro herr
    cases h1 : m.client.getSecurityGroup log (securityGroupRef d) with
    | error e1 => simp [CreateSecurityGroupRule, h1]
    | ok securityGroup =>
      cases h2 : withUserSecurityGroup m.client d (securityGroupRuleProfile securityGroup d)
          (log ++ [.getSecurityGroup (securityGroupRef d)]) with
      | mk res log2 =>
        cases res with
        | error e2 => simp [CreateSecurityGroupRule, h1, h2]
        | ok profile =>
          cases h3 : createRule m.client d profile m.async log2 with
          | error e3 => simp [CreateSecurityGroupRule, h1, h2, h3]
          | ok resp =>
            simp [CreateSecurityGroupRule, h1, h2, h3, applySecurityGroupRule] at herr

/-- C6 at concrete inputs: (1) the owning group `sg-1` is gone; (2) the owning group
resolves and the peer group `db` does not; (3) both resolve and the API refuses to
create the ingress rule.  Each time the error comes back and the resource data,
which asks for an ingress rule of `sg-1`, is untouched. -/
theorem CreateSecurityGroupRule_atomic_witness :
    CreateSecurityGroupRule ⟨goneClient, false⟩ newRuleData []
      = ⟨some (.notFound "sg-1"), newRuleData, [.getSecurityGroup "sg-1"]⟩ ∧
    CreateSecurityGroupRule ⟨loneClient, false⟩
        { newRuleData with cidr := none, user_security_group := some "db" } []
      = ⟨some (.notFound "db"),
          { newRuleData with cidr := none, user_security_group := some "db" },
          [.getSecurityGroup "sg-1", .getSecurityGroup "db"]⟩ ∧
    CreateSecurityGroupRule ⟨refusingClient, true⟩ newRuleData []
      = ⟨some (.failure "ingress refused"), newRuleData,
          [.getSecurityGroup "sg-1",
           .CreateIngressRule
             { SecurityGroupId := "sg-1", Cidr := "10.0.0.0/8", Protocol := "TCP",
               StartPort := 22, EndPort := 22, IcmpType := 0, IcmpCode := 0,
               UserSecurityGroupList := [] } true]⟩ :=
  ⟨((CreateSecurityGroupRule_atomic ⟨goneClient, false⟩ newRuleData []
        (.notFound "sg-1")).1 rfl).1,
   ((CreateSecurityGroupRule_atomic ⟨loneClient, false⟩
        { newRuleData with cidr := none, user_security_group := some "db" } []
        (.notFound "db")).2.1 sampleGroup rfl (by decide) rfl).1,
   (CreateSecurityGroupRule_atomic ⟨refusingClient, true⟩ newRuleData []
        (.failure "ingress refused")).2.2.1 sampleGroup
      { SecurityGroupId := "sg-1", Cidr := "10.0.0.0/8", Protocol := "TCP",
        StartPort := 22, EndPort := 22, IcmpType := 0, IcmpCode := 0,
        UserSecurityGroupList := [] }
      [.getSecurityGroup "sg-1"] rfl rfl rfl⟩

/-! ## Theorems: validation of the rule schema -/

/-- A set key that validates passes the `ValidateFunc` of its entry. -/
theorem validate_ValidateFunc (k : String) (schema : Schema) (c : Config) (f : Value → Bool)
    (v : Value) (hf : schema.ValidateFunc = some f) (h : schemaMap.validate k schema c = true)
    (hv : c.lookup k = some v) : f v = true := by
  simp [schemaMap.validate, hv, schemaMap.validateType, hf] at h
  exact h.2.2

/-- A set key that validates has none of its conflicting keys set. -/
theorem validate_ConflictsWith (k : String) (schema : Schema) (c : Config) (v : Value)
    (h : schemaMap.validate k schema c = true) (hv : c.lookup k = some v) :
    ∀ ck ∈ schema.ConflictsWith, c.lookup ck = none := by
  simp only [schemaMap.validate, hv, schemaMap.validateConflictingAttributes,
    Bool.and_eq_true, List.all_eq_true, Option.isNone_iff_eq_none] at h
  exact h.1.2

/-- What `validation.IntBetween` accepts. -/
theorem IntBetween_true (lo hi : Int) (v : Value) (h : validation.IntBetween lo hi v = true) :
    ∃ n : Int, v = .int n ∧ lo ≤ n ∧ n ≤ hi := by
  cases v with
  | int n =>
    simp [validation.IntBetween] at h
    exact ⟨n, rfl, h.1, h.2⟩
  | str s => simp [validation.IntBetween] at h
  | set xs => simp [validation.IntBetween] at h

/-- C9: a configuration accepted by the validation of the rule schema has
`start_port` and `end_port`, when set, in [1, 65535], `icmp_type` and `icmp_code`,
when set, in [0, 255], does not set both `cidr` and `user_security_group`, and does
not set one of `start_port`, `end_port` together with one of `icmp_type`,
`icmp_code`.  Read backwards: a configuration breaking one of these is rejected. -/
theorem SecurityGroupRuleResource_Schema_sound (CIDRNetwork : Int → Int → Value → Bool) (c : Config)
    (h : schemaMap.Validate (SecurityGroupRuleResource CIDRNetwork).Schema c = true) :
    (∀ v, c.lookup "start_port" = some v → ∃ n : Int, v = .int n ∧ 1 ≤ n ∧ n ≤ 65535) ∧
    (∀ v, c.lookup "end_port" = some v → ∃ n : Int, v = .int n ∧ 1 ≤ n ∧ n ≤ 65535) ∧
    (∀ v, c.lookup "icmp_type" = some v → ∃ n : Int, v = .int n ∧ 0 ≤ n ∧ n ≤ 255) ∧
    (∀ v, c.lookup "icmp_code" = some v → ∃ n : Int, v = .int n ∧ 0 ≤ n ∧ n ≤ 255) ∧
    ¬ ((c.lookup "cidr").isSome ∧ (c.lookup "user_security_group").isSome) ∧
    ¬ (((c.lookup "start_port").isSome ∨ (c.lookup "end_port").isSome) ∧
        ((c.lookup "icmp_type").isSome ∨ (c.lookup "icmp_code").isSome)) := by
  simp only [schemaMap.Validate, SecurityGroupRuleResource, List.all_cons, List.all_nil,
    Bool.and_true, Bool.and_eq_true] at h
  obtain ⟨⟨-, -, -, hcidr, -, hsp, hep, hit, hic, -⟩, -⟩ := h
  refine ⟨?_, ?_, ?_, ?_, ?_, ?_⟩
  · intro v hv
    exact IntBetween_true 1 65535 v (validate_ValidateFunc _ _ c _ v rfl hsp hv)
  · intro v hv
    exact IntBetween_true 1 65535 v (validate_ValidateFunc _ _ c _ v rfl hep hv)
  · intro v hv
    exact IntBetween_true 0 255 v (validate_ValidateFunc _ _ c _ v rfl hit hv)
  · intro v hv
    exact IntBetween_true 0 255 v (validate_ValidateFunc _ _ c _ v rfl hic hv)
  · rintro ⟨h1, h2⟩
    obtain ⟨v, hv⟩ := Option.isSome_iff_exists.mp h1
    have := validate_ConflictsWith _ _ c v hcidr hv "user_security_group" (by simp)
    simp [this] at h2
  · rintro ⟨h1, h2⟩
    have key : ∀ k schema, schemaMap.validate k schema c = true → (c.lookup k).isSome →
        schema.ConflictsWith = ["icmp_type", "icmp_code"] →
        c.lookup "icmp_type" = none ∧ c.lookup "icmp_code" = none := by
      intro k schema hval hset hcw
      obtain ⟨v, hv⟩ := Option.isSome_iff_exists.mp hset
      have hall := validate_ConflictsWith k schema c v hval hv
      rw [hcw] at hall
      exact ⟨hall _ (by simp), hall _ (by simp)⟩
    have hnone : c.lookup "icmp_type" = none ∧ c.lookup "icmp_code" = none := by
      rcases h1 with h1 | h1
      · exact key _ _ hsp h1 rfl
      · exact key _ _ hep h1 rfl
    simp [hnone.1, hnone.2] at h2

/-- C9 at a concrete input: a TCP rule for port 22 from `10.0.0.0/8` is accepted,
its ports are in range and none of the exclusive pairs is set. -/
theorem SecurityGroupRuleResource_Schema_sound_witness :
    schemaMap.Validate (SecurityGroupRuleResource fun _ _ _ => true).Schema sshConfig = true ∧
    (∀ v, sshConfig.lookup "start_port" = some v →
      ∃ n : Int, v = .int n ∧ 1 ≤ n ∧ n ≤ 65535) ∧
    ¬ ((sshConfig.lookup "cidr").isSome ∧ (sshConfig.lookup "user_security_group").isSome) :=
  ⟨by decide,
   (SecurityGroupRuleResource_Schema_sound (fun _ _ _ => true) sshConfig (by decide)).1,
   (SecurityGroupRuleResource_Schema_sound (fun _ _ _ => true) sshConfig (by decide)).2.2.2.2.1⟩

/-- Configurations that break one of the constraints of C9 are rejected: a port 0,
an ICMP type 256, a CIDR next to a peer group, a port next to an ICMP code. -/
theorem SecurityGroupRuleResource_Schema_rejects :
    schemaMap.Validate (SecurityGroupRuleResource fun _ _ _ => true).Schema
      [("type", .str "ingress"), ("start_port", .int 0)] = false ∧
    schemaMap.Validate (SecurityGroupRuleResource fun _ _ _ => true).Schema
      [("type", .str "ingress"), ("icmp_type", .int 256)] = false ∧
    schemaMap.Validate (SecurityGroupRuleResource fun _ _ _ => true).Schema
      [("type", .str "ingress"), ("cidr", .str "10.0.0.0/8"),
       ("user_security_group", .str "db")] = false ∧
    schemaMap.Validate (SecurityGroupRuleResource fun _ _ _ => true).Schema
      [("type", .str "ingress"), ("end_port", .int 22), ("icmp_code", .int 0)] = false := by
  decide

/-! ## Theorems: the profile submitted by `CreateSecurityGroupRule` -/

/-- A key that the schema of the rule resource does not declare reads as
`(nil, false)`. -/
theorem GetOkExists_undeclared (CIDRNetwork : Int → Int → Value → Bool)
    (d : SecurityGroupRuleData) (key : String)
    (h : (SecurityGroupRuleResource CIDRNetwork).Schema.lookup key = none) :
    d.GetOkExists key = (none, false) := by
  unfold SecurityGroupRuleData.GetOkExists
  simp only [SecurityGroupRuleResource, List.lookup_cons, List.lookup_nil] at h
  repeat' split at h
  all_goals simp_all

/-- No rule data has a `port` attribute: the schema declares none. -/
theorem GetOkExists_port (d : SecurityGroupRuleData) : d.GetOkExists "port" = (none, false) :=
  GetOkExists_undeclared (fun _ _ _ => true) d "port" rfl

/-- The profile of `CreateSecurityGroupRule` is the struct literal of lines 104-112:
the override by `port` never applies. -/
theorem securityGroupRuleProfile_eq (securityGroup : SecurityGroup)
    (d : SecurityGroupRuleData) :
    securityGroupRuleProfile securityGroup d =
      { SecurityGroupId := securityGroup.Id, Cidr := d.cidr.getD "",
        Protocol := strings.ToUpper (d.protocol.getD ""),
        StartPort := d.start_port.getD 0, EndPort := d.end_port.getD 0,
        IcmpType := d.icmp_type.getD 0, IcmpCode := d.icmp_code.getD 0,
        UserSecurityGroupList := [] } := by
  simp [securityGroupRuleProfile, GetOkExists_port]

/-- C5, at a failing input: the configuration `portConfig` sets `port = 80` and no
other port.  The schema has no entry `port`, so validation rejects it, for that key
alone (the same configuration without it is accepted); and `CreateSecurityGroupRule` on the data of that
configuration, where `port` has no place, submits `StartPort = EndPort = 0`, which
the API echoes into `start_port` and `end_port`. -/
theorem CreateSecurityGroupRule_port_ignored :
    ((SecurityGroupRuleResource fun _ _ _ => true).Schema.lookup "port").isNone = true ∧
    schemaMap.Validate (SecurityGroupRuleResource fun _ _ _ => true).Schema portConfig = false ∧
    schemaMap.Validate (SecurityGroupRuleResource fun _ _ _ => true).Schema
      (portConfig.filter fun kv => kv.1 ≠ "port") = true ∧
    portRuleData.GetOkExists "port" = (none, false) ∧
    (CreateSecurityGroupRule ⟨healthyClient, false⟩ portRuleData []).calls
      = [.getSecurityGroup "sg-1",
         .CreateIngressRule
           { SecurityGroupId := "sg-1", Cidr := "", Protocol := "TCP",
             StartPort := 0, EndPort := 0, IcmpType := 0, IcmpCode := 0,
             UserSecurityGroupList := [] } false] ∧
    (CreateSecurityGroupRule ⟨healthyClient, false⟩ portRuleData []).d.start_port = some 0 ∧
    (CreateSecurityGroupRule ⟨healthyClient, false⟩ portRuleData []).d.end_port = some 0 := by
  decide

/-- On ASCII, upper-casing does not see a previous lower-casing (table). -/
theorem ToUpper_ToLower_table : ∀ n : Fin 128,
    unicode.ToUpper (unicode.ToLower (Char.ofNat n.val)) = unicode.ToUpper (Char.ofNat n.val) := by
  decide

/-- On ASCII, upper-casing does not see a previous lower-casing. -/
theorem ToUpper_ToLower_ascii (s : String) (h : ∀ c ∈ s.data, c.toNat < 128) :
    strings.ToUpper (strings.ToLower s) = strings.ToUpper s := by
  have hchar : ∀ c : Char, c.toNat < 128 →
      unicode.ToUpper (unicode.ToLower c) = unicode.ToUpper c := by
    intro c hc
    simpa [Char.ofNat_toNat] using ToUpper_ToLower_table ⟨c.toNat, hc⟩
  simp only [strings.ToUpper, strings.ToLower, List.map_map]
  congr 1
  apply List.map_congr_left
  intro c hc
  exact hchar c (h c hc)

/-- The validation of `protocol` accepts a string exactly when its lower-case form
is the lower-case form of one of the six names. -/
theorem protocol_accepted_iff (p : String) :
    validation.StringInSlice ["TCP", "UDP", "ICMP", "AH", "ESP", "GRE"] true (.str p) = true ↔
      strings.ToLower p ∈ ["tcp", "udp", "icmp", "ah", "esp", "gre"] := by
  have h1 : strings.ToLower "TCP" = "tcp" := by decide
  have h2 : strings.ToLower "UDP" = "udp" := by decide
  have h3 : strings.ToLower "ICMP" = "icmp" := by decide
  have h4 : strings.ToLower "AH" = "ah" := by decide
  have h5 : strings.ToLower "ESP" = "esp" := by decide
  have h6 : strings.ToLower "GRE" = "gre" := by decide
  simp only [validation.StringInSlice, List.any_cons, List.any_nil, Bool.or_false,
    Bool.true_and, Bool.or_eq_true, beq_iff_eq, h1, h2, h3, h4, h5, h6, List.mem_cons,
    List.not_mem_nil, or_false]
  constructor
  · rintro ((h | h) | (h | h) | (h | h) | (h | h) | (h | h) | (h | h))
    all_goals first
      | (subst h; simp [h1, h2, h3, h4, h5, h6])
      | simp [h]
  · rintro (h | h | h | h | h | h) <;> simp [h]

/-- The peer group step only appends lookups to the calls and keeps the protocol of
the profile. -/
theorem withUserSecurityGroup_calls (client : Client) (d : SecurityGroupRuleData)
    (profile : SecurityGroupRuleProfile) (log : List ApiCall) :
    (∀ c ∈ (withUserSecurityGroup client d profile log).2, c ∉ log → c.ruleProfile? = none) ∧
    ∀ p, (withUserSecurityGroup client d profile log).1 = .ok p → p.Protocol = profile.Protocol := by
  unfold withUserSecurityGroup
  by_cases hname : d.user_security_group.getD "" = ""
  · simp only [hname, ne_eq, not_true_eq_false, if_false]
    refine ⟨fun c hc hlog => absurd hc hlog, ?_⟩
    intro p hp
    cases hp
    rfl
  · cases hlook : client.getSecurityGroup log (d.user_security_group.getD "") with
    | error e =>
      simp only [ne_eq, hname, not_false_eq_true, if_true, hlook]
      refine ⟨?_, fun p hp => by cases hp⟩
      intro c hc hlog
      rcases List.mem_append.mp hc with hc | hc
      · exact absurd hc hlog
      · rw [List.mem_singleton.mp hc]; rfl
    | ok usg =>
      simp only [ne_eq, hname, not_false_eq_true, if_true, hlook]
      refine ⟨?_, fun p hp => by cases hp; rfl⟩
      intro c hc hlog
      rcases List.mem_append.mp hc with hc | hc
      · exact absurd hc hlog
      · rw [List.mem_singleton.mp hc]; rfl

/-- The call that creates the rule carries the profile it was given. -/
theorem createRuleCall_ruleProfile (d : SecurityGroupRuleData)
    (profile : SecurityGroupRuleProfile) (async : Bool) :
    (createRuleCall d profile async).ruleProfile? = some profile := by
  unfold createRuleCall
  by_cases h : strings.ToLower (d.type.getD "") = "ingress" <;> simp [h, ApiCall.ruleProfile?]

/-- Every rule creation called by `CreateSecurityGroupRule` submits the upper-case
form of the stored protocol. -/
theorem CreateSecurityGroupRule_submits_ToUpper (m : BaseConfig) (d : SecurityGroupRuleData)
    (log : List ApiCall) :
    ∀ c ∈ (CreateSecurityGroupRule m d log).calls, c ∉ log → ∀ profile,
      c.ruleProfile? = some profile →
      profile.Protocol = strings.ToUpper (d.protocol.getD "") := by
  intro c hc hlog profile hprofile
  have hfirst : ∀ x ∈ log ++ [ApiCall.getSecurityGroup (securityGroupRef d)], x ∉ log →
      x.ruleProfile? = none := by
    intro x hx hxlog
    rcases List.mem_append.mp hx with hx | hx
    · exact absurd hx hxlog
    · rw [List.mem_singleton.mp hx]; rfl
  cases h1 : m.client.getSecurityGroup log (securityGroupRef d) with
  | error e1 =>
    simp only [CreateSecurityGroupRule, h1] at hc
    rw [hfirst c hc hlog] at hprofile
    cases hprofile
  | ok securityGroup =>
    have hpeer := withUserSecurityGroup_calls m.client d
      (securityGroupRuleProfile securityGroup d)
      (log ++ [.getSecurityGroup (securityGroupRef d)])
    cases h2 : withUserSecurityGroup m.client d (securityGroupRuleProfile securityGroup d)
        (log ++ [.getSecurityGroup (securityGroupRef d)]) with
    | mk res log2 =>
      rw [h2] at hpeer
      have hlog2 : ∀ x ∈ log2, x ∉ log → x.ruleProfile? = none := by
        intro x hx hxlog
        by_cases hx1 : x ∈ log ++ [ApiCall.getSecurityGroup (securityGroupRef d)]
        · exact hfirst x hx1 hxlog
        · exact hpeer.1 x hx hx1
      cases res with
      | error e2 =>
        simp only [CreateSecurityGroupRule, h1, h2] at hc
        rw [hlog2 c hc hlog] at hprofile
        cases hprofile
      | ok p =>
        have hproto : p.Protocol = strings.ToUpper (d.protocol.getD "") := by
          rw [hpeer.2 p rfl, securityGroupRuleProfile_eq]
        have hcall : c ∈ log2 ++ [createRuleCall d p m.async] := by
          cases h3 : createRule m.client d p m.async log2 <;>
            simpa [CreateSecurityGroupRule, h1, h2, h3, applySecurityGroupRule] using hc
        rcases List.mem_append.mp hcall with hc2 | hc2
        · rw [hlog2 c hc2 hlog] at hprofile
          cases hprofile
        · rw [List.mem_singleton.mp hc2, createRuleCall_ruleProfile] at hprofile
          cases hprofile
          exact hproto

/-- C7, counterexample: the protocol `dottedICMP` passes the validation of the
schema, since its lower-case form is `icmp`; it is its own upper-case form, so
`CreateSecurityGroupRule` submits it as it is, and it is none of the six names. -/
theorem CreateSecurityGroupRule_protocol_dotted :
    validation.StringInSlice ["TCP", "UDP", "ICMP", "AH", "ESP", "GRE"] true
      (.str dottedICMP) = true ∧
    schemaMap.Validate (SecurityGroupRuleResource fun _ _ _ => true).Schema
      [("type", .str "ingress"), ("security_group_id", .str "sg-1"),
       ("protocol", .str dottedICMP)] = true ∧
    strings.ToLower dottedICMP = "icmp" ∧
    strings.ToUpper dottedICMP = dottedICMP ∧
    (CreateSecurityGroupRule ⟨healthyClient, false⟩
        { portRuleData with protocol := some dottedICMP } []).calls
      = [.getSecurityGroup "sg-1",
         .CreateIngressRule
           { SecurityGroupId := "sg-1", Cidr := "", Protocol := dottedICMP,
             StartPort := 0, EndPort := 0, IcmpType := 0, IcmpCode := 0,
             UserSecurityGroupList := [] } false] ∧
    dottedICMP ∉ ["TCP", "UDP", "ICMP", "AH", "ESP", "GRE"] := by
  decide

/-- C7, amended: for a stored protocol made of ASCII characters and accepted by the
validation of the schema, every rule creation called by `CreateSecurityGroupRule`
submits the upper-case form of the protocol, and that form is one of the six
upper-case names; and a string passes the validation exactly when its lower-case
form is that of one of the six names. -/
theorem CreateSecurityGroupRule_protocol (m : BaseConfig) (d : SecurityGroupRuleData)
    (log : List ApiCall)
    (hascii : ∀ c ∈ (d.protocol.getD "").data, c.toNat < 128)
    (hvalid : validation.StringInSlice ["TCP", "UDP", "ICMP", "AH", "ESP", "GRE"] true
      (.str (d.protocol.getD "")) = true) :
    (∀ c ∈ (CreateSecurityGroupRule m d log).calls, c ∉ log → ∀ profile,
      c.ruleProfile? = some profile →
      profile.Protocol = strings.ToUpper (d.protocol.getD "")) ∧
    strings.ToUpper (d.protocol.getD "") ∈ ["TCP", "UDP", "ICMP", "AH", "ESP", "GRE"] ∧
    (∀ q, validation.StringInSlice ["TCP", "UDP", "ICMP", "AH", "ESP", "GRE"] true
        (.str q) = true ↔
      strings.ToLower q ∈ ["tcp", "udp", "icmp", "ah", "esp", "gre"]) := by
  refine ⟨CreateSecurityGroupRule_submits_ToUpper m d log, ?_, protocol_accepted_iff⟩
  have hlow := (protocol_accepted_iff (d.protocol.getD "")).mp hvalid
  rw [← ToUpper_ToLower_ascii _ hascii]
  simp only [List.mem_cons, List.not_mem_nil, or_false] at hlow
  rcases hlow with h | h | h | h | h | h <;> rw [h] <;> decide

/-- C7, amended, at a concrete input: the protocol `tcp` is accepted and the rule
is created with `Protocol = "TCP"`. -/
theorem CreateSecurityGroupRule_protocol_witness :
    (CreateSecurityGroupRule ⟨healthyClient, false⟩
        { newRuleData with protocol := some "tcp" } []).calls
      = [.getSecurityGroup "sg-1",
         .CreateIngressRule
           { SecurityGroupId := "sg-1", Cidr := "10.0.0.0/8", Protocol := "TCP",
             StartPort := 22, EndPort := 22, IcmpType := 0, IcmpCode := 0,
             UserSecurityGroupList := [] } false] ∧
    strings.ToUpper "tcp" ∈ ["TCP", "UDP", "ICMP", "AH", "ESP", "GRE"] :=
  ⟨by decide,
   (CreateSecurityGroupRule_protocol ⟨healthyClient, false⟩
      { newRuleData with protocol := some "tcp" } [] (by decide) (by decide)).2.1⟩

end Exoscale
